import Mathlib

/-!
# astartectl: pre-run hooks and the trigger delivery policy commands

A shallow embedding of

* `cmd/appengine/appengine.go`: `appEnginePersistentPreRunE`, `deviceIdentifierTypeFromFlags`;
* `cmd/pairing/pairing.go`: `pairingPersistentPreRunE`;
* `cmd/realm/policies.go`: `policiesListF`, `policiesShowF`, `policiesInstallF`,
  `policiesDeleteF`.

Go functions with side effects are embedded as pure functions that return the effects
they performed: what was written to standard output and standard error, the ordered
trace of calls made to the collaborators (client factory, call builders, `Run`, `Parse`),
and how the function ended (returned to cobra, or terminated the process with `os.Exit`).
The collaborators that live outside the three source files (the astarte-go client
library, the configuration store, the file system, `encoding/json`) are parameters.
-/

namespace Astartectl

/-! ## Data model -/

/-- Go `error` values, identified by their message. -/
abbrev Error := String

/-- The `misc.AstarteService` identifiers used by the command groups. -/
inductive AstarteService where
  | AppEngine
  | Pairing
  | RealmManagement
  deriving DecidableEq, Repr

/-- The configuration store as read through `viper.GetString`: the value of a key once
its flag has been bound, the empty string when nothing sets it. -/
abbrev Viper := String → String

/-- The `client.Client` handle produced by the client factory. -/
structure Client where
  urls : List (AstarteService × String)
  key : String
  deriving DecidableEq, Repr

/-- A decoded `map[string]interface{}`: keys with the raw text of their values. -/
abbrev JSONMap := List (String × String)

/-- The call builders of the client used by the policies commands, with their arguments. -/
inductive Request where
  | ListTriggerDeliveryPolicies (realm : String)
  | GetTriggerDeliveryPolicy (realm : String) (policyName : String)
  | InstallTriggerDeliveryPolicy (realm : String) (policyBody : JSONMap)
  | DeleteTriggerDeliveryPolicy (realm : String) (policyName : String)
  deriving DecidableEq, Repr

/-- A built, not yet executed remote operation. -/
structure Call where
  method : String
  path : String
  body : String
  deriving DecidableEq, Repr

/-- The result of executing a `Call`. -/
structure Response where
  raw : String
  deriving DecidableEq, Repr

/-- The loosely typed value (`interface{}`) returned by `Response.Parse`: the nil
interface, a `[]string`, or a value of any other dynamic type. -/
inductive Value where
  | nil
  | strings (l : List String)
  | other (tag : String)
  deriving DecidableEq, Repr

/-- `client.DeviceIdentifierType`. -/
inductive DeviceIdentifierType where
  | AutodiscoverDeviceIdentifier
  | AstarteDeviceID
  | AstarteDeviceAlias
  deriving DecidableEq, Repr

/-- Calls made to the collaborators, in the order they are made. -/
inductive Event where
  | apiCommandSetup (individualURLVariables : List (AstarteService × String))
      (keyVariable : String) (keyFileVariable : String)
  | build (req : Request)
  | run (call : Call)
  | parse (res : Response)
  deriving DecidableEq, Repr

/-- How a command function ends: it returns its `error` result to cobra, or it terminates
the process from inside with `os.Exit(code)`. -/
inductive Outcome where
  | returned (err : Option Error)
  | exited (code : Nat)
  deriving DecidableEq, Repr

/-- The observable effects of one invocation. -/
structure Proc where
  stdout : List String
  stderr : List String
  trace : List Event
  deriving DecidableEq, Repr

/-- Nothing printed, nothing called yet. -/
def Proc.start : Proc := ⟨[], [], []⟩

/-- `fmt.Println(s)` -/
def Proc.println (p : Proc) (s : String) : Proc :=
  ⟨p.stdout ++ [s], p.stderr, p.trace⟩

/-- `fmt.Fprintln(os.Stderr, err)` -/
def Proc.eprintln (p : Proc) (err : Error) : Proc :=
  ⟨p.stdout, p.stderr ++ [err], p.trace⟩

/-- Record a call to a collaborator. -/
def Proc.log (p : Proc) (e : Event) : Proc :=
  ⟨p.stdout, p.stderr, p.trace ++ [e]⟩

/-- The effects of a finished command function together with the way it ended. -/
structure Finished where
  proc : Proc
  outcome : Outcome
  deriving DecidableEq, Repr

/-- The package level variables `realm` and `astarteAPIClient` (a pointer, nil until the
client factory has produced a client). -/
structure Globals where
  realm : String
  astarteAPIClient : Option Client
  deriving DecidableEq, Repr

/-- The result of a pre-run hook: the package variables afterwards, the collaborator calls
it made, and the `error` it returned. -/
structure HookRun where
  globals : Globals
  trace : List Event
  err : Option Error
  deriving DecidableEq, Repr

/-- The signature of `utils.APICommandSetup`, reading the configuration store. -/
abbrev SetupFn :=
  Viper → List (AstarteService × String) → String → String → Except Error Client

/-! ## cmd/appengine/appengine.go -/

/-- The `appEnginePersistentPreRunE` hook; `setup` is `utils.APICommandSetup`. -/
def appEnginePersistentPreRunE (setup : SetupFn) (viper : Viper) (g : Globals) : HookRun :=
  let appEngineURLOverride := viper "individual-urls.appengine"
  let realmManagementURLOverride := viper "individual-urls.realm-management"
  -- Handle a special failure case, if realm-management is provided but appengine isn't
  if appEngineURLOverride = "" ∧ realmManagementURLOverride ≠ "" then
    ⟨g, [], some "Either astarte-url or appengine-url have to be specified"⟩
  else
    let individualURLVariables :=
      [(AstarteService.AppEngine, "individual-urls.appengine"),
       (AstarteService.RealmManagement, "individual-urls.realm-management")]
    let trace := [Event.apiCommandSetup individualURLVariables "realm.key" "realm.key-file"]
    match setup viper individualURLVariables "realm.key" "realm.key-file" with
    | .error err => ⟨⟨g.realm, none⟩, trace, some err⟩
    | .ok c =>
      let realm := viper "realm.name"
      if realm = "" then
        ⟨⟨realm, some c⟩, trace, some "realm is required"⟩
      else
        ⟨⟨realm, some c⟩, trace, none⟩

/-- The `deviceIdentifierTypeFromFlags` classifier; `isValidAstarteDeviceID` is
`misc.IsValidAstarteDeviceID` of the client library. The Go result `(type, error)` is an
`Except`: the zero value that accompanies an error is not represented. -/
def deviceIdentifierTypeFromFlags (isValidAstarteDeviceID : String → Bool)
    (deviceIdentifier : String) (forceDeviceIdentifier : String) :
    Except Error DeviceIdentifierType :=
  if forceDeviceIdentifier = "" then
    .ok DeviceIdentifierType.AutodiscoverDeviceIdentifier
  else if forceDeviceIdentifier = "device-id" then
    if !isValidAstarteDeviceID deviceIdentifier then
      .error ("Required to evaluate the Device Identifier as an Astarte Device ID, but "
        ++ deviceIdentifier ++ " isn't a valid one")
    else
      .ok DeviceIdentifierType.AstarteDeviceID
  else if forceDeviceIdentifier = "alias" then
    .ok DeviceIdentifierType.AstarteDeviceAlias
  else
    .error (forceDeviceIdentifier
      ++ " is not a valid Astarte Device Identifier type. Valid options are [device-id alias]")

/-! ## cmd/pairing/pairing.go -/

/-- The `pairingPersistentPreRunE` hook; `setup` is `utils.APICommandSetup`. -/
def pairingPersistentPreRunE (setup : SetupFn) (viper : Viper) (g : Globals) : HookRun :=
  let individualURLVariables := [(AstarteService.Pairing, "individual-urls.pairing")]
  let trace := [Event.apiCommandSetup individualURLVariables "realm.key" "realm.key-file"]
  match setup viper individualURLVariables "realm.key" "realm.key-file" with
  | .error err => ⟨⟨g.realm, none⟩, trace, some err⟩
  | .ok c =>
    let realm := viper "realm.name"
    if realm = "" then
      ⟨⟨realm, some c⟩, trace, some "realm is required"⟩
    else
      ⟨⟨realm, some c⟩, trace, none⟩

/-! ## Collaborators from the rest of the repository -/

/-- Modelled from the spec: the fixed, service-specific path suffix appended to the global
base URL (§4.1: `/appengine`, `/pairing`, `/realmmanagement`); it lives in the client
factory of the `utils` package, which is not among the source files. -/
def serviceSuffix : AstarteService → String
  | .AppEngine => "/appengine"
  | .Pairing => "/pairing"
  | .RealmManagement => "/realmmanagement"

/-- Modelled from the spec: the Service URL Resolver of §4.1, part of `utils.APICommandSetup`
(not among the source files). An explicit per-service override is used verbatim; otherwise
the global base URL (configuration key `url`, the `astarte-url` flag) is required and the
service suffix is appended to it; with neither, resolution is a configuration error. -/
def resolveServiceURL (viper : Viper) (svc : AstarteService) (overrideVariable : String) :
    Except Error String :=
  if viper overrideVariable ≠ "" then
    .ok (viper overrideVariable)
  else if viper "url" ≠ "" then
    .ok (viper "url" ++ serviceSuffix svc)
  else
    .error "no base URL for a required service"

/-- Modelled from the spec: resolution of every required service of the mapping handed
to `utils.APICommandSetup` (§4.2), failing on the first service that does not resolve. -/
def resolveAll (viper : Viper) :
    List (AstarteService × String) → Except Error (List (AstarteService × String))
  | [] => .ok []
  | (svc, var) :: rest =>
    match resolveServiceURL viper svc var with
    | .error e => .error e
    | .ok u =>
      match resolveAll viper rest with
      | .error e => .error e
      | .ok us => .ok ((svc, u) :: us)

/-- Modelled from the spec: the Authenticated Client Factory `utils.APICommandSetup` of
§4.2 (not among the source files). Every required service URL must resolve, and the
signing key must be present inline or be loadable from the key file; `readFile` is the
file system. -/
def APICommandSetup (readFile : String → Except Error String) : SetupFn :=
  fun viper individualURLVariables keyVariable keyFileVariable =>
    match resolveAll viper individualURLVariables with
    | .error e => .error e
    | .ok urls =>
      if viper keyVariable ≠ "" then
        .ok ⟨urls, viper keyVariable⟩
      else if viper keyFileVariable ≠ "" then
        match readFile (viper keyFileVariable) with
        | .error e => .error e
        | .ok key => .ok ⟨urls, key⟩
      else
        .error "no realm key"

/-- The collaborators of the policies commands. -/
structure Env where
  /-- The file system: `ioutil.ReadFile`. -/
  readFile : String → Except Error String
  /-- The decoder `json.Unmarshal` into a `map[string]interface{}`. -/
  unmarshal : String → Except Error JSONMap
  /-- The call builders of the client (`ListTriggerDeliveryPolicies`, ...). -/
  build : Option Client → Request → Except Error Call
  /-- The executor `Call.Run(client)`. -/
  run : Call → Option Client → Except Error Response
  /-- The parser `Response.Parse()`: a value and an error, as Go returns both. -/
  parse : Response → Value × Option Error
  /-- The encoder `json.MarshalIndent(v, "", "  ")` on values other than the nil interface. -/
  marshalIndent : Value → Except Error String
  /-- Whether the invocation is in "show equivalent request" mode. -/
  dryRun : Bool
  /-- The rendering of a call as an equivalent low-level request. -/
  toCurl : Call → Option Client → String

/-- Modelled from the spec: `utils.MaybeCurlAndExit` (not among the source files), the
dry-run check of §4.4 step 2. In "show equivalent request" mode it prints the call as an
equivalent low-level request and terminates the process successfully; otherwise it does
nothing and returns. The second component is `some` outcome when the process ended. -/
def MaybeCurlAndExit (env : Env) (call : Call) (c : Option Client) (p : Proc) :
    Proc × Option Outcome :=
  if env.dryRun then
    (p.println (env.toCurl call c), some (Outcome.exited 0))
  else
    (p, none)

/-- Modelled from the spec: the exit status of the invocation (§4.3, §6, §7; the top-level
handler is not among the source files). An `os.Exit(code)` inside the command ends the
process with that code; a returned error is surfaced as a non-zero exit; returning no
error is exit 0. -/
def exitStatus : Outcome → Nat
  | .exited code => code
  | .returned none => 0
  | .returned (some _) => 1

/-! ## Go library behaviour used by the policies commands -/

/-- `fmt.Println` of a `[]string`: the elements separated by blanks, in brackets. -/
def sprintStrings (l : List String) : String :=
  "[" ++ " ".intercalate l ++ "]"

/-- `json.MarshalIndent(v, "", "  ")`, as its bytes and error: the nil interface encodes
as `null`; other values are left to the encoder of the environment. -/
def jsonMarshalIndent (env : Env) : Value → String × Option Error
  | .nil => ("null", none)
  | v =>
    match env.marshalIndent v with
    | .ok s => (s, none)
    | .error e => ("", some e)

/-! ## cmd/realm/policies.go -/

/-- The `policiesListF` command. -/
def policiesListF (env : Env) (g : Globals) (_args : List String) : Finished :=
  let p := Proc.start.log (Event.build (Request.ListTriggerDeliveryPolicies g.realm))
  match env.build g.astarteAPIClient (Request.ListTriggerDeliveryPolicies g.realm) with
  | .error err => ⟨p.eprintln err, Outcome.exited 1⟩
  | .ok policiesCall =>
    match MaybeCurlAndExit env policiesCall g.astarteAPIClient p with
    | (p, some out) => ⟨p, out⟩
    | (p, none) =>
      let p := p.log (Event.run policiesCall)
      match env.run policiesCall g.astarteAPIClient with
      | .error err => ⟨p.eprintln err, Outcome.exited 1⟩
      | .ok policiesRes =>
        let p := p.log (Event.parse policiesRes)
        let rawPolicies := (env.parse policiesRes).1
        let policies : List String :=
          match rawPolicies with
          | .strings l => l
          | _ => []
        ⟨p.println (sprintStrings policies), Outcome.returned none⟩

/-- The `policiesShowF` command; `cobra.ExactArgs(1)` on the command guarantees that
`args` is the single `policyName`. -/
def policiesShowF (env : Env) (g : Globals) (policyName : String) : Finished :=
  let p := Proc.start.log (Event.build (Request.GetTriggerDeliveryPolicy g.realm policyName))
  match env.build g.astarteAPIClient (Request.GetTriggerDeliveryPolicy g.realm policyName) with
  | .error err => ⟨p.eprintln err, Outcome.exited 1⟩
  | .ok getPolicyCall =>
    match MaybeCurlAndExit env getPolicyCall g.astarteAPIClient p with
    | (p, some out) => ⟨p, out⟩
    | (p, none) =>
      let p := p.log (Event.run getPolicyCall)
      match env.run getPolicyCall g.astarteAPIClient with
      | .error err => ⟨p.eprintln err, Outcome.exited 1⟩
      | .ok getPolicyRes =>
        let p := p.log (Event.parse getPolicyRes)
        let policyDefinition := (env.parse getPolicyRes).1
        let respJSON := (jsonMarshalIndent env policyDefinition).1
        ⟨p.println respJSON, Outcome.returned none⟩

/-- The `policiesInstallF` command; `cobra.ExactArgs(1)` on the command guarantees that
`args` is the single `policyFile` path. -/
def policiesInstallF (env : Env) (g : Globals) (policyFilePath : String) : Finished :=
  match env.readFile policyFilePath with
  | .error err => ⟨Proc.start, Outcome.returned (some err)⟩
  | .ok policyFile =>
    match env.unmarshal policyFile with
    | .error err => ⟨Proc.start, Outcome.returned (some err)⟩
    | .ok policyBody =>
      let p := Proc.start.log
        (Event.build (Request.InstallTriggerDeliveryPolicy g.realm policyBody))
      match env.build g.astarteAPIClient
          (Request.InstallTriggerDeliveryPolicy g.realm policyBody) with
      | .error err => ⟨p.eprintln err, Outcome.exited 1⟩
      | .ok installPolicyCall =>
        match MaybeCurlAndExit env installPolicyCall g.astarteAPIClient p with
        | (p, some out) => ⟨p, out⟩
        | (p, none) =>
          let p := p.log (Event.run installPolicyCall)
          match env.run installPolicyCall g.astarteAPIClient with
          | .error err => ⟨p.eprintln err, Outcome.exited 1⟩
          | .ok installPolicyRes =>
            let p := p.log (Event.parse installPolicyRes)
            ⟨p.println "ok", Outcome.returned none⟩

/-- The `policiesDeleteF` command; `cobra.ExactArgs(1)` on the command guarantees that
`args` is the single `policyName`. -/
def policiesDeleteF (env : Env) (g : Globals) (policyName : String) : Finished :=
  let p := Proc.start.log
    (Event.build (Request.DeleteTriggerDeliveryPolicy g.realm policyName))
  match env.build g.astarteAPIClient
      (Request.DeleteTriggerDeliveryPolicy g.realm policyName) with
  | .error err => ⟨p.eprintln err, Outcome.exited 1⟩
  | .ok deletePolicyCall =>
    match MaybeCurlAndExit env deletePolicyCall g.astarteAPIClient p with
    | (p, some out) => ⟨p, out⟩
    | (p, none) =>
      let p := p.log (Event.run deletePolicyCall)
      match env.run deletePolicyCall g.astarteAPIClient with
      | .error err => ⟨p.eprintln err, Outcome.exited 1⟩
      | .ok deletePolicyRes =>
        let p := p.log (Event.parse deletePolicyRes)
        ⟨p.println "ok", Outcome.returned none⟩

/-! ## Predicates used in the statements -/

/-- What a hook leaves behind once the client factory has returned the client `c`: the
client is stored and the realm variable holds the configured name; the error is "realm is
required" exactly when that name is empty; with a non-empty name there is no error and the
session realm is that name; in the failing case the client is stored and no call has been
built. -/
def RealmChecked (viper : Viper) (r : HookRun) (c : Client) : Prop :=
  r.globals = ⟨viper "realm.name", some c⟩ ∧
  (r.err = some "realm is required" ↔ viper "realm.name" = "") ∧
  (viper "realm.name" ≠ "" → r.err = none ∧ r.globals.realm = viper "realm.name") ∧
  (viper "realm.name" = "" →
    r.globals.astarteAPIClient = some c ∧ ∀ req, Event.build req ∉ r.trace)

/-- The call is never executed: `Run` does not occur in the trace. -/
def NeverRuns (r : Finished) : Prop :=
  ∀ call, Event.run call ∉ r.proc.trace

/-- The command `r`, whose Build step is the request `req`, aborts on a failing call. If
Build returns the error `e`, or Build succeeds and (outside dry-run mode) Execute returns
the error `e`, then the process is terminated with exit status 1, `e` is the only line on
standard error, nothing is on standard output, and the trace ends at the failing step (no
`Parse`, no second call). -/
def AbortsOnCallError (env : Env) (c : Option Client) (req : Request) (r : Finished) : Prop :=
  (∀ e, env.build c req = .error e →
    r = ⟨⟨[], [e], [Event.build req]⟩, Outcome.exited 1⟩ ∧ exitStatus r.outcome = 1) ∧
  (∀ call e, env.build c req = .ok call → env.dryRun = false →
    env.run call c = .error e →
    r = ⟨⟨[], [e], [Event.build req, Event.run call]⟩, Outcome.exited 1⟩ ∧
    exitStatus r.outcome = 1)

/-- The shape shared by the four commands once their arguments are decoded (§4.4): build
the call `req`, check for dry-run, execute, parse, and print `render res`. It is only
used to state the lemmas below once instead of four times. -/
def callPipeline (env : Env) (c : Option Client) (req : Request)
    (render : Response → String) : Finished :=
  let p := Proc.start.log (Event.build req)
  match env.build c req with
  | .error err => ⟨p.eprintln err, Outcome.exited 1⟩
  | .ok call =>
    match MaybeCurlAndExit env call c p with
    | (p, some out) => ⟨p, out⟩
    | (p, none) =>
      let p := p.log (Event.run call)
      match env.run call c with
      | .error err => ⟨p.eprintln err, Outcome.exited 1⟩
      | .ok res =>
        let p := p.log (Event.parse res)
        ⟨p.println (render res), Outcome.returned none⟩

/-- What `policiesListF` prints for a response. -/
def renderList (env : Env) (res : Response) : String :=
  sprintStrings (match (env.parse res).1 with
    | .strings l => l
    | _ => [])

/-- What `policiesShowF` prints for a response. -/
def renderShow (env : Env) (res : Response) : String :=
  (jsonMarshalIndent env (env.parse res).1).1

/-! ## Concrete configurations and environments used to exercise the statements -/

/-- A file system without any file. -/
def noFiles : String → Except Error String :=
  fun path => .error ("open " ++ path ++ ": no such file or directory")

/-- Only the Realm Management override is set: no AppEngine override, no global base URL. -/
def cfgRealmManagementOnly : Viper := fun k =>
  if k = "individual-urls.realm-management" then "https://rm.astarte.example"
  else if k = "realm.key" then "KEY"
  else if k = "realm.name" then "test"
  else ""

/-- The same configuration without the Realm Management override. -/
def cfgBaseOnly : Viper := fun k =>
  if k = "url" then "https://api.astarte.example"
  else if k = "realm.key" then "KEY"
  else if k = "realm.name" then "test"
  else ""

/-- The global base URL and the realm key are set, the realm name is not. -/
def cfgNoRealm : Viper := fun k =>
  if k = "url" then "https://api.astarte.example"
  else if k = "realm.key" then "KEY"
  else ""

/-- The package variables before the hook has run. -/
def freshGlobals : Globals := ⟨"", none⟩

/-- A stand-in for the validity check of the client library: a Device ID is 128 bits,
that is 22 characters of unpadded base64. -/
def sampleIsValidDeviceID : String → Bool :=
  fun s => s.length == 22

/-- The package variables of the realm management group once its hook has run. -/
def sessionGlobals : Globals :=
  ⟨"test", some ⟨[(AstarteService.RealmManagement, "https://rm.astarte.example")], "KEY"⟩⟩

/-- A call builder that always succeeds. -/
def sampleBuild : Option Client → Request → Except Error Call
  | _, .ListTriggerDeliveryPolicies realm => .ok ⟨"GET", "/v1/" ++ realm ++ "/policies", ""⟩
  | _, .GetTriggerDeliveryPolicy realm name =>
    .ok ⟨"GET", "/v1/" ++ realm ++ "/policies/" ++ name, ""⟩
  | _, .InstallTriggerDeliveryPolicy realm body =>
    .ok ⟨"POST", "/v1/" ++ realm ++ "/policies", ", ".intercalate (body.map (fun kv => kv.1 ++ ": " ++ kv.2))⟩
  | _, .DeleteTriggerDeliveryPolicy realm name =>
    .ok ⟨"DELETE", "/v1/" ++ realm ++ "/policies/" ++ name, ""⟩

/-- A remote service holding the policies `a` and `b`: every call succeeds, every response
parses to the list of the two names, the file `policy.json` holds a policy document and
`broken.json` holds text that does not decode. -/
def envLive : Env where
  readFile := fun path =>
    if path = "policy.json" then .ok "\x7b\"name\": \"a\"\x7d"
    else if path = "broken.json" then .ok "\x7b\"name\": "
    else .error ("open " ++ path ++ ": no such file or directory")
  unmarshal := fun text =>
    if text = "\x7b\"name\": \"a\"\x7d" then .ok [("name", "\"a\"")]
    else .error "unexpected end of JSON input"
  build := sampleBuild
  run := fun call _ => .ok ⟨call.method ++ " " ++ call.path ++ " 200"⟩
  parse := fun _ => (Value.strings ["a", "b"], none)
  marshalIndent := fun _ => .ok "[\n  \"a\",\n  \"b\"\n]"
  dryRun := false
  toCurl := fun call _ => "curl -X " ++ call.method ++ " " ++ call.path

/-- The same environment in "show equivalent request" mode. -/
def envDryRun : Env :=
  ⟨envLive.readFile, envLive.unmarshal, envLive.build, envLive.run, envLive.parse,
    envLive.marshalIndent, true, envLive.toCurl⟩

/-- The "show equivalent request" mode with a client whose call builders fail. -/
def envDryRunBuildFails : Env :=
  ⟨envLive.readFile, envLive.unmarshal, fun _ _ => .error "invalid realm name",
    envLive.run, envLive.parse, envLive.marshalIndent, true, envLive.toCurl⟩

/-- A remote service that answers every call with a not-found error. -/
def envNotFound : Env :=
  ⟨envLive.readFile, envLive.unmarshal, envLive.build, fun _ _ => .error "404 not found",
    envLive.parse, envLive.marshalIndent, false, envLive.toCurl⟩

/-- `policiesListF` is the shared pipeline on the list request. -/
theorem policiesListF_eq_pipeline (env : Env) (g : Globals) (args : List String) :
    policiesListF env g args = callPipeline env g.astarteAPIClient
      (Request.ListTriggerDeliveryPolicies g.realm) (renderList env) := rfl

/-- `policiesShowF` is the shared pipeline on the get request. -/
theorem policiesShowF_eq_pipeline (env : Env) (g : Globals) (policyName : String) :
    policiesShowF env g policyName = callPipeline env g.astarteAPIClient
      (Request.GetTriggerDeliveryPolicy g.realm policyName) (renderShow env) := rfl

/-- `policiesDeleteF` is the shared pipeline on the delete request. -/
theorem policiesDeleteF_eq_pipeline (env : Env) (g : Globals) (policyName : String) :
    policiesDeleteF env g policyName = callPipeline env g.astarteAPIClient
      (Request.DeleteTriggerDeliveryPolicy g.realm policyName) (fun _ => "ok") := rfl

/-- Once the file is read and decoded, `policiesInstallF` is the shared pipeline on the
install request. -/
theorem policiesInstallF_eq_pipeline (env : Env) (g : Globals) (path content : String)
    (M : JSONMap) (hread : env.readFile path = .ok content)
    (hdecode : env.unmarshal content = .ok M) :
    policiesInstallF env g path = callPipeline env g.astarteAPIClient
      (Request.InstallTriggerDeliveryPolicy g.realm M) (fun _ => "ok") := by
  simp only [policiesInstallF, hread, hdecode]
  rfl

/-- The pipeline when Build fails. -/
theorem callPipeline_build_error (env : Env) (c : Option Client) (req : Request)
    (render : Response → String) (e : Error) (hb : env.build c req = .error e) :
    callPipeline env c req render = ⟨⟨[], [e], [Event.build req]⟩, Outcome.exited 1⟩ := by
  simp [callPipeline, hb, Proc.start, Proc.log, Proc.eprintln]

/-- The pipeline in dry-run mode once the call is built. -/
theorem callPipeline_dryRun (env : Env) (c : Option Client) (req : Request)
    (render : Response → String) (call : Call) (hb : env.build c req = .ok call)
    (hd : env.dryRun = true) :
    callPipeline env c req render
      = ⟨⟨[env.toCurl call c], [], [Event.build req]⟩, Outcome.exited 0⟩ := by
  simp [callPipeline, MaybeCurlAndExit, hb, hd, Proc.start, Proc.log, Proc.println]

/-- The pipeline when Execute fails. -/
theorem callPipeline_run_error (env : Env) (c : Option Client) (req : Request)
    (render : Response → String) (call : Call) (e : Error)
    (hb : env.build c req = .ok call) (hd : env.dryRun = false)
    (hr : env.run call c = .error e) :
    callPipeline env c req render
      = ⟨⟨[], [e], [Event.build req, Event.run call]⟩, Outcome.exited 1⟩ := by
  simp [callPipeline, MaybeCurlAndExit, hb, hd, hr, Proc.start, Proc.log, Proc.eprintln]

/-- The pipeline aborts on a failing Build or Execute. -/
theorem callPipeline_aborts (env : Env) (c : Option Client) (req : Request)
    (render : Response → String) :
    AbortsOnCallError env c req (callPipeline env c req render) := by
  constructor
  · intro e hb
    rw [callPipeline_build_error env c req render e hb]
    exact ⟨rfl, rfl⟩
  · intro call e hb hd hr
    rw [callPipeline_run_error env c req render call e hb hd hr]
    exact ⟨rfl, rfl⟩

/-- C1: in `appEnginePersistentPreRunE`, when the Realm Management override is non-empty
and no AppEngine URL can be resolved (empty AppEngine override, no global base URL), the
hook returns the error "Either astarte-url or appengine-url have to be specified", the
client factory has not been invoked, and the package variables (realm name and client)
are left as they were. -/
theorem appEngine_preRun_realm_management_without_appengine
    (setup : SetupFn) (viper : Viper) (g : Globals)
    (hrm : viper "individual-urls.realm-management" ≠ "")
    (hae : viper "individual-urls.appengine" = "")
    (_hbase : viper "url" = "") :
    (appEnginePersistentPreRunE setup viper g).err
        = some "Either astarte-url or appengine-url have to be specified" ∧
      (appEnginePersistentPreRunE setup viper g).trace = [] ∧
      (∀ vars k kf,
        Event.apiCommandSetup vars k kf ∉ (appEnginePersistentPreRunE setup viper g).trace) ∧
      (appEnginePersistentPreRunE setup viper g).globals = g := by
  have hguard : viper "individual-urls.appengine" = "" ∧
      viper "individual-urls.realm-management" ≠ "" := ⟨hae, hrm⟩
  simp [appEnginePersistentPreRunE, hguard]

/-- The statement of C1 at the configuration that sets only the Realm Management
override, with the client factory of the spec. -/
theorem appEngine_preRun_realm_management_without_appengine_witness :
    (cfgRealmManagementOnly "individual-urls.realm-management" ≠ "" ∧
      cfgRealmManagementOnly "individual-urls.appengine" = "" ∧
      cfgRealmManagementOnly "url" = "") ∧
    (appEnginePersistentPreRunE (APICommandSetup noFiles) cfgRealmManagementOnly
        freshGlobals).err
      = some "Either astarte-url or appengine-url have to be specified" ∧
    (appEnginePersistentPreRunE (APICommandSetup noFiles) cfgRealmManagementOnly
        freshGlobals).globals.realm = "" :=
  have h := appEngine_preRun_realm_management_without_appengine (APICommandSetup noFiles)
    cfgRealmManagementOnly freshGlobals (by decide) (by decide) (by decide)
  ⟨⟨by decide, by decide, by decide⟩, h.1, by rw [h.2.2.2]; rfl⟩

/-- C3: for both pre-run hooks, whenever client construction succeeds, that is whenever
the client factory called by the hook returns a client `c` (for the AppEngine hook the
factory is called unless the guard on the URL overrides has returned first), the hook has
invoked the factory exactly once, has stored `c` and the configured realm name, and
returns "realm is required" if and only if the configured realm name is empty; with a
non-empty name it returns no error and the session realm is the configured name; in the
failing case the client is stored and no call has been built. -/
theorem preRun_realm_required (setup : SetupFn) (viper : Viper) (g : Globals) (c : Client) :
    (¬ (viper "individual-urls.appengine" = "" ∧
        viper "individual-urls.realm-management" ≠ "") →
      setup viper
        [(AstarteService.AppEngine, "individual-urls.appengine"),
         (AstarteService.RealmManagement, "individual-urls.realm-management")]
        "realm.key" "realm.key-file" = .ok c →
      (appEnginePersistentPreRunE setup viper g).trace
        = [Event.apiCommandSetup
            [(AstarteService.AppEngine, "individual-urls.appengine"),
             (AstarteService.RealmManagement, "individual-urls.realm-management")]
            "realm.key" "realm.key-file"] ∧
      RealmChecked viper (appEnginePersistentPreRunE setup viper g) c) ∧
    (setup viper [(AstarteService.Pairing, "individual-urls.pairing")]
        "realm.key" "realm.key-file" = .ok c →
      (pairingPersistentPreRunE setup viper g).trace
        = [Event.apiCommandSetup [(AstarteService.Pairing, "individual-urls.pairing")]
            "realm.key" "realm.key-file"] ∧
      RealmChecked viper (pairingPersistentPreRunE setup viper g) c) := by
  constructor
  · intro hguard hok
    unfold appEnginePersistentPreRunE
    simp only [hguard, if_false]
    rw [hok]
    by_cases hr : viper "realm.name" = "" <;> simp [RealmChecked, hr]
  · intro hok
    unfold pairingPersistentPreRunE
    dsimp only
    rw [hok]
    by_cases hr : viper "realm.name" = "" <;> simp [RealmChecked, hr]

/-- The statement of C3 with the client factory of the spec, for both hooks: at the
configuration without a realm name the client is constructed and stored and the hook
fails with "realm is required"; at the configuration with the realm name `test` the hook
returns no error and the session realm is `test`. -/
theorem preRun_realm_required_witness :
    (¬ (cfgNoRealm "individual-urls.appengine" = "" ∧
        cfgNoRealm "individual-urls.realm-management" ≠ "") ∧
      APICommandSetup noFiles cfgNoRealm
        [(AstarteService.AppEngine, "individual-urls.appengine"),
         (AstarteService.RealmManagement, "individual-urls.realm-management")]
        "realm.key" "realm.key-file"
        = .ok ⟨[(AstarteService.AppEngine, "https://api.astarte.example/appengine"),
          (AstarteService.RealmManagement, "https://api.astarte.example/realmmanagement")],
          "KEY"⟩ ∧
      APICommandSetup noFiles cfgBaseOnly [(AstarteService.Pairing, "individual-urls.pairing")]
        "realm.key" "realm.key-file"
        = .ok ⟨[(AstarteService.Pairing, "https://api.astarte.example/pairing")], "KEY"⟩) ∧
    (appEnginePersistentPreRunE (APICommandSetup noFiles) cfgNoRealm freshGlobals).err
      = some "realm is required" ∧
    (appEnginePersistentPreRunE (APICommandSetup noFiles) cfgNoRealm
        freshGlobals).globals.astarteAPIClient
      = some ⟨[(AstarteService.AppEngine, "https://api.astarte.example/appengine"),
          (AstarteService.RealmManagement, "https://api.astarte.example/realmmanagement")],
          "KEY"⟩ ∧
    (pairingPersistentPreRunE (APICommandSetup noFiles) cfgNoRealm freshGlobals).err
      = some "realm is required" ∧
    (appEnginePersistentPreRunE (APICommandSetup noFiles) cfgBaseOnly freshGlobals).err
      = none ∧
    (appEnginePersistentPreRunE (APICommandSetup noFiles) cfgBaseOnly
        freshGlobals).globals.realm = "test" ∧
    (pairingPersistentPreRunE (APICommandSetup noFiles) cfgBaseOnly freshGlobals).err
      = none ∧
    (pairingPersistentPreRunE (APICommandSetup noFiles) cfgBaseOnly freshGlobals).globals
      = ⟨"test", some ⟨[(AstarteService.Pairing, "https://api.astarte.example/pairing")],
          "KEY"⟩⟩ :=
  have hA0 := ((preRun_realm_required (APICommandSetup noFiles) cfgNoRealm freshGlobals
    ⟨[(AstarteService.AppEngine, "https://api.astarte.example/appengine"),
      (AstarteService.RealmManagement, "https://api.astarte.example/realmmanagement")],
      "KEY"⟩).1 (by decide) rfl).2
  have hP0 := ((preRun_realm_required (APICommandSetup noFiles) cfgNoRealm freshGlobals
    ⟨[(AstarteService.Pairing, "https://api.astarte.example/pairing")], "KEY"⟩).2 rfl).2
  have hA1 := ((preRun_realm_required (APICommandSetup noFiles) cfgBaseOnly freshGlobals
    ⟨[(AstarteService.AppEngine, "https://api.astarte.example/appengine"),
      (AstarteService.RealmManagement, "https://api.astarte.example/realmmanagement")],
      "KEY"⟩).1 (by decide) rfl).2
  have hP1 := ((preRun_realm_required (APICommandSetup noFiles) cfgBaseOnly freshGlobals
    ⟨[(AstarteService.Pairing, "https://api.astarte.example/pairing")], "KEY"⟩).2 rfl).2
  ⟨⟨by decide, rfl, rfl⟩, hA0.2.1.mpr (by decide), (hA0.2.2.2 (by decide)).1,
    hP0.2.1.mpr (by decide), (hA1.2.2.1 (by decide)).1, (hA1.2.2.1 (by decide)).2,
    (hP1.2.2.1 (by decide)).1, hP1.1⟩

/-! ## The policies commands -/

/-- C4 (as stated, refuted): in dry-run mode, `policiesListF` with a failing Build step
terminates the process with status 1, and `policiesInstallF` on an unreadable file
returns the read error, which is a non-zero exit; neither ends with exit status 0. -/
theorem dryRun_build_failure_exits_nonzero :
    envDryRunBuildFails.dryRun = true ∧
    (policiesListF envDryRunBuildFails sessionGlobals []).outcome = Outcome.exited 1 ∧
    exitStatus (policiesListF envDryRunBuildFails sessionGlobals []).outcome ≠ 0 ∧
    envDryRun.dryRun = true ∧
    (policiesInstallF envDryRun sessionGlobals "missing.json").outcome
      = Outcome.returned (some "open missing.json: no such file or directory") ∧
    exitStatus (policiesInstallF envDryRun sessionGlobals "missing.json").outcome ≠ 0 := by
  refine ⟨rfl, by decide, by decide, rfl, by decide, by decide⟩

/-- C4 (amended): in dry-run mode no policies command ever executes its call, for every
input; and the invocation ends with exit status 0 exactly when the call has been built,
that is when Build succeeds (for install: when the file is read, decodes, and Build
succeeds). -/
theorem dryRun_never_runs_exits_zero_when_built (env : Env) (g : Globals)
    (args : List String) (policyName path : String) (hdry : env.dryRun = true) :
    (NeverRuns (policiesListF env g args) ∧
      (exitStatus (policiesListF env g args).outcome = 0 ↔
        ∃ call, env.build g.astarteAPIClient (Request.ListTriggerDeliveryPolicies g.realm)
          = .ok call)) ∧
    (NeverRuns (policiesShowF env g policyName) ∧
      (exitStatus (policiesShowF env g policyName).outcome = 0 ↔
        ∃ call, env.build g.astarteAPIClient
          (Request.GetTriggerDeliveryPolicy g.realm policyName) = .ok call)) ∧
    (NeverRuns (policiesInstallF env g path) ∧
      (exitStatus (policiesInstallF env g path).outcome = 0 ↔
        ∃ content M call, env.readFile path = .ok content ∧ env.unmarshal content = .ok M ∧
          env.build g.astarteAPIClient (Request.InstallTriggerDeliveryPolicy g.realm M)
            = .ok call)) ∧
    (NeverRuns (policiesDeleteF env g policyName) ∧
      (exitStatus (policiesDeleteF env g policyName).outcome = 0 ↔
        ∃ call, env.build g.astarteAPIClient
          (Request.DeleteTriggerDeliveryPolicy g.realm policyName) = .ok call)) := by
  refine ⟨?_, ?_, ?_, ?_⟩
  · unfold policiesListF
    cases hb : env.build g.astarteAPIClient (Request.ListTriggerDeliveryPolicies g.realm) <;>
      simp [NeverRuns, MaybeCurlAndExit, hdry, Proc.start, Proc.log, Proc.println,
        Proc.eprintln, exitStatus]
  · unfold policiesShowF
    cases hb : env.build g.astarteAPIClient
        (Request.GetTriggerDeliveryPolicy g.realm policyName) <;>
      simp [NeverRuns, MaybeCurlAndExit, hdry, Proc.start, Proc.log, Proc.println,
        Proc.eprintln, exitStatus]
  · unfold policiesInstallF
    cases hr : env.readFile path with
    | error e => simp [NeverRuns, Proc.start, exitStatus]
    | ok content =>
      cases hu : env.unmarshal content with
      | error e => simp [NeverRuns, hu, Proc.start, exitStatus]
      | ok M =>
        cases hb : env.build g.astarteAPIClient
            (Request.InstallTriggerDeliveryPolicy g.realm M) <;>
          simp [NeverRuns, MaybeCurlAndExit, hdry, hu, hb, Proc.start, Proc.log,
            Proc.println, Proc.eprintln, exitStatus]
  · unfold policiesDeleteF
    cases hb : env.build g.astarteAPIClient
        (Request.DeleteTriggerDeliveryPolicy g.realm policyName) <;>
      simp [NeverRuns, MaybeCurlAndExit, hdry, Proc.start, Proc.log, Proc.println,
        Proc.eprintln, exitStatus]

/-- The statement of C4 (amended) in dry-run mode against a working service: no command
executes its call and, every call being built, each invocation ends with exit status 0. -/
theorem dryRun_never_runs_exits_zero_when_built_witness :
    envDryRun.dryRun = true ∧
    NeverRuns (policiesListF envDryRun sessionGlobals []) ∧
    exitStatus (policiesListF envDryRun sessionGlobals []).outcome = 0 ∧
    NeverRuns (policiesInstallF envDryRun sessionGlobals "policy.json") ∧
    exitStatus (policiesInstallF envDryRun sessionGlobals "policy.json").outcome = 0 :=
  have h := dryRun_never_runs_exits_zero_when_built envDryRun sessionGlobals []
    "my_policy" "policy.json" rfl
  ⟨rfl, h.1.1, h.1.2.mpr ⟨_, rfl⟩, h.2.2.1.1, h.2.2.1.2.mpr ⟨_, _, _, rfl, rfl, rfl⟩⟩

/-- C5: when the install file is read but its content does not decode into a string-keyed
mapping, `policiesInstallF` returns the decode error as its result (it does not terminate
the process), builds no call, executes no call and prints nothing. -/
theorem policiesInstallF_decode_error (env : Env) (g : Globals) (path content : String)
    (e : Error) (hread : env.readFile path = .ok content)
    (hdecode : env.unmarshal content = .error e) :
    (policiesInstallF env g path).outcome = Outcome.returned (some e) ∧
    (policiesInstallF env g path).proc.trace = [] ∧
    (policiesInstallF env g path).proc.stdout = [] ∧
    (policiesInstallF env g path).proc.stderr = [] := by
  simp [policiesInstallF, hread, hdecode, Proc.start]

/-- The statement of C5 for the file `broken.json`, whose content is cut short. -/
theorem policiesInstallF_decode_error_witness :
    (envLive.readFile "broken.json" = .ok "\x7b\"name\": " ∧
      envLive.unmarshal "\x7b\"name\": " = .error "unexpected end of JSON input") ∧
    (policiesInstallF envLive sessionGlobals "broken.json").outcome
      = Outcome.returned (some "unexpected end of JSON input") ∧
    (policiesInstallF envLive sessionGlobals "broken.json").proc.trace = [] ∧
    (policiesInstallF envLive sessionGlobals "broken.json").proc.stdout = [] :=
  have h := policiesInstallF_decode_error envLive sessionGlobals "broken.json"
    "\x7b\"name\": " "unexpected end of JSON input" rfl rfl
  ⟨⟨rfl, rfl⟩, h.1, h.2.1, h.2.2.1⟩

/-- C6: outside dry-run mode, when the install file decodes to the mapping `M` and Build
and Execute succeed, `policiesInstallF` builds exactly one call, with the session realm
and with `M` itself as body, executes it exactly once, prints exactly "ok" and returns no
error, whatever `Parse` returns. -/
theorem policiesInstallF_installs (env : Env) (g : Globals) (path content : String)
    (M : JSONMap) (call : Call) (res : Response)
    (hlive : env.dryRun = false)
    (hread : env.readFile path = .ok content)
    (hdecode : env.unmarshal content = .ok M)
    (hbuild : env.build g.astarteAPIClient (Request.InstallTriggerDeliveryPolicy g.realm M)
      = .ok call)
    (hrun : env.run call g.astarteAPIClient = .ok res) :
    (policiesInstallF env g path).proc.trace
      = [Event.build (Request.InstallTriggerDeliveryPolicy g.realm M), Event.run call,
         Event.parse res] ∧
    (policiesInstallF env g path).proc.stdout = ["ok"] ∧
    (policiesInstallF env g path).proc.stderr = [] ∧
    (policiesInstallF env g path).outcome = Outcome.returned none := by
  simp [policiesInstallF, MaybeCurlAndExit, hlive, hread, hdecode, hbuild, hrun, Proc.start,
    Proc.log, Proc.println]

/-- The statement of C6 for the file `policy.json` in the realm `test`. -/
theorem policiesInstallF_installs_witness :
    (envLive.dryRun = false ∧
      envLive.readFile "policy.json" = .ok "\x7b\"name\": \"a\"\x7d" ∧
      envLive.unmarshal "\x7b\"name\": \"a\"\x7d" = .ok [("name", "\"a\"")] ∧
      envLive.build sessionGlobals.astarteAPIClient
          (Request.InstallTriggerDeliveryPolicy sessionGlobals.realm [("name", "\"a\"")])
        = .ok ⟨"POST", "/v1/test/policies", "name: \"a\""⟩ ∧
      envLive.run ⟨"POST", "/v1/test/policies", "name: \"a\""⟩
          sessionGlobals.astarteAPIClient
        = .ok ⟨"POST /v1/test/policies 200"⟩) ∧
    (policiesInstallF envLive sessionGlobals "policy.json").proc.trace
      = [Event.build (Request.InstallTriggerDeliveryPolicy "test" [("name", "\"a\"")]),
         Event.run ⟨"POST", "/v1/test/policies", "name: \"a\""⟩,
         Event.parse ⟨"POST /v1/test/policies 200"⟩] ∧
    (policiesInstallF envLive sessionGlobals "policy.json").proc.stdout = ["ok"] ∧
    (policiesInstallF envLive sessionGlobals "policy.json").outcome
      = Outcome.returned none :=
  have h := policiesInstallF_installs envLive sessionGlobals "policy.json"
    "\x7b\"name\": \"a\"\x7d" [("name", "\"a\"")]
    ⟨"POST", "/v1/test/policies", "name: \"a\""⟩ ⟨"POST /v1/test/policies 200"⟩
    rfl rfl rfl rfl rfl
  ⟨⟨rfl, rfl, rfl, rfl, rfl⟩, h.1, h.2.1, h.2.2.2⟩

/-- C7: outside dry-run mode, when Build and Execute succeed and the parsed response is
the list of names `L`, `policiesListF` prints exactly one line, the Go rendering of `L`
itself (its elements in the same order, none added, dropped, duplicated or reordered),
and returns no error. -/
theorem policiesListF_prints_parsed_list (env : Env) (g : Globals) (args : List String)
    (call : Call) (res : Response) (L : List String)
    (hlive : env.dryRun = false)
    (hbuild : env.build g.astarteAPIClient (Request.ListTriggerDeliveryPolicies g.realm)
      = .ok call)
    (hrun : env.run call g.astarteAPIClient = .ok res)
    (hparse : (env.parse res).1 = Value.strings L) :
    (policiesListF env g args).proc.stdout = ["[" ++ " ".intercalate L ++ "]"] ∧
    (policiesListF env g args).proc.stderr = [] ∧
    (policiesListF env g args).proc.trace
      = [Event.build (Request.ListTriggerDeliveryPolicies g.realm), Event.run call,
         Event.parse res] ∧
    (policiesListF env g args).outcome = Outcome.returned none := by
  simp [policiesListF, MaybeCurlAndExit, hlive, hbuild, hrun, hparse, Proc.start,
    Proc.log, Proc.println, sprintStrings]

/-- The statement of C7 for a realm holding the policies `a` and `b`: the printed line is
`[a b]`. -/
theorem policiesListF_prints_parsed_list_witness :
    (envLive.dryRun = false ∧
      envLive.build sessionGlobals.astarteAPIClient
          (Request.ListTriggerDeliveryPolicies sessionGlobals.realm)
        = .ok ⟨"GET", "/v1/test/policies", ""⟩ ∧
      envLive.run ⟨"GET", "/v1/test/policies", ""⟩ sessionGlobals.astarteAPIClient
        = .ok ⟨"GET /v1/test/policies 200"⟩ ∧
      (envLive.parse ⟨"GET /v1/test/policies 200"⟩).1 = Value.strings ["a", "b"]) ∧
    (policiesListF envLive sessionGlobals []).proc.stdout = ["[a b]"] ∧
    (policiesListF envLive sessionGlobals []).outcome = Outcome.returned none :=
  have h := policiesListF_prints_parsed_list envLive sessionGlobals []
    ⟨"GET", "/v1/test/policies", ""⟩ ⟨"GET /v1/test/policies 200"⟩ ["a", "b"]
    rfl rfl rfl rfl
  ⟨⟨rfl, rfl, rfl, rfl⟩, h.1, h.2.2.2⟩

/-- C8: for each policies command (list, show, install, delete), if Build of the call
returns an error, or Build succeeds and Execute (reached outside dry-run mode) returns an
error, the invocation terminates with exit status 1, the error is the only line written
to standard error, nothing is written to standard output, `Parse` and the rendering are
never reached, and no second call is attempted: the trace ends at the failing step. For
install the Build step is the one on the mapping decoded from the file. -/
theorem policies_abort_on_call_error (env : Env) (g : Globals) (args : List String)
    (policyName path : String) :
    AbortsOnCallError env g.astarteAPIClient (Request.ListTriggerDeliveryPolicies g.realm)
      (policiesListF env g args) ∧
    AbortsOnCallError env g.astarteAPIClient
      (Request.GetTriggerDeliveryPolicy g.realm policyName)
      (policiesShowF env g policyName) ∧
    (∀ content M, env.readFile path = .ok content → env.unmarshal content = .ok M →
      AbortsOnCallError env g.astarteAPIClient
        (Request.InstallTriggerDeliveryPolicy g.realm M) (policiesInstallF env g path)) ∧
    AbortsOnCallError env g.astarteAPIClient
      (Request.DeleteTriggerDeliveryPolicy g.realm policyName)
      (policiesDeleteF env g policyName) := by
  refine ⟨?_, ?_, ?_, ?_⟩
  · rw [policiesListF_eq_pipeline]; exact callPipeline_aborts _ _ _ _
  · rw [policiesShowF_eq_pipeline]; exact callPipeline_aborts _ _ _ _
  · intro content M hread hdecode
    rw [policiesInstallF_eq_pipeline env g path content M hread hdecode]
    exact callPipeline_aborts _ _ _ _
  · rw [policiesDeleteF_eq_pipeline]; exact callPipeline_aborts _ _ _ _

/-- The statement of C8 for the four commands, against a service that answers every call
with a not-found error (Execute fails) and with a client whose call builders fail (Build
fails). -/
theorem policies_abort_on_call_error_witness :
    (envNotFound.dryRun = false ∧
      envNotFound.readFile "policy.json" = .ok "\x7b\"name\": \"a\"\x7d" ∧
      envNotFound.unmarshal "\x7b\"name\": \"a\"\x7d" = .ok [("name", "\"a\"")] ∧
      envNotFound.build sessionGlobals.astarteAPIClient
          (Request.GetTriggerDeliveryPolicy sessionGlobals.realm "missing_policy")
        = .ok ⟨"GET", "/v1/test/policies/missing_policy", ""⟩ ∧
      envNotFound.run ⟨"GET", "/v1/test/policies/missing_policy", ""⟩
          sessionGlobals.astarteAPIClient = .error "404 not found" ∧
      envDryRunBuildFails.build sessionGlobals.astarteAPIClient
          (Request.ListTriggerDeliveryPolicies sessionGlobals.realm)
        = .error "invalid realm name") ∧
    policiesShowF envNotFound sessionGlobals "missing_policy"
      = ⟨⟨[], ["404 not found"],
          [Event.build (Request.GetTriggerDeliveryPolicy "test" "missing_policy"),
           Event.run ⟨"GET", "/v1/test/policies/missing_policy", ""⟩]⟩,
         Outcome.exited 1⟩ ∧
    policiesListF envNotFound sessionGlobals []
      = ⟨⟨[], ["404 not found"],
          [Event.build (Request.ListTriggerDeliveryPolicies "test"),
           Event.run ⟨"GET", "/v1/test/policies", ""⟩]⟩,
         Outcome.exited 1⟩ ∧
    policiesInstallF envNotFound sessionGlobals "policy.json"
      = ⟨⟨[], ["404 not found"],
          [Event.build (Request.InstallTriggerDeliveryPolicy "test" [("name", "\"a\"")]),
           Event.run ⟨"POST", "/v1/test/policies", "name: \"a\""⟩]⟩,
         Outcome.exited 1⟩ ∧
    policiesDeleteF envNotFound sessionGlobals "missing_policy"
      = ⟨⟨[], ["404 not found"],
          [Event.build (Request.DeleteTriggerDeliveryPolicy "test" "missing_policy"),
           Event.run ⟨"DELETE", "/v1/test/policies/missing_policy", ""⟩]⟩,
         Outcome.exited 1⟩ ∧
    policiesListF envDryRunBuildFails sessionGlobals []
      = ⟨⟨[], ["invalid realm name"],
          [Event.build (Request.ListTriggerDeliveryPolicies "test")]⟩, Outcome.exited 1⟩ ∧
    policiesShowF envDryRunBuildFails sessionGlobals "missing_policy"
      = ⟨⟨[], ["invalid realm name"],
          [Event.build (Request.GetTriggerDeliveryPolicy "test" "missing_policy")]⟩,
         Outcome.exited 1⟩ ∧
    policiesInstallF envDryRunBuildFails sessionGlobals "policy.json"
      = ⟨⟨[], ["invalid realm name"],
          [Event.build (Request.InstallTriggerDeliveryPolicy "test" [("name", "\"a\"")])]⟩,
         Outcome.exited 1⟩ ∧
    policiesDeleteF envDryRunBuildFails sessionGlobals "missing_policy"
      = ⟨⟨[], ["invalid realm name"],
          [Event.build (Request.DeleteTriggerDeliveryPolicy "test" "missing_policy")]⟩,
         Outcome.exited 1⟩ :=
  have hx := policies_abort_on_call_error envNotFound sessionGlobals []
    "missing_policy" "policy.json"
  have hb := policies_abort_on_call_error envDryRunBuildFails sessionGlobals []
    "missing_policy" "policy.json"
  ⟨⟨rfl, rfl, rfl, rfl, rfl, rfl⟩,
    (hx.2.1.2 _ "404 not found" rfl rfl rfl).1,
    (hx.1.2 _ "404 not found" rfl rfl rfl).1,
    ((hx.2.2.1 _ _ rfl rfl).2 _ "404 not found" rfl rfl rfl).1,
    (hx.2.2.2.2 _ "404 not found" rfl rfl rfl).1,
    (hb.1.1 "invalid realm name" rfl).1,
    (hb.2.1.1 "invalid realm name" rfl).1,
    ((hb.2.2.1 _ _ rfl rfl).1 "invalid realm name" rfl).1,
    (hb.2.2.2.1 "invalid realm name" rfl).1⟩

/-- C10: `deviceIdentifierTypeFromFlags` is a total classifier. It returns an error if and
only if `forceDeviceIdentifier` is none of "", "device-id", "alias", or it is "device-id"
and `deviceIdentifier` is not a valid Astarte Device ID. Otherwise it returns Autodiscover
for "", AstarteDeviceID for "device-id" and AstarteDeviceAlias for "alias"; for "" and
"alias" the result is the same for every `deviceIdentifier`, and the match is exact and
case-sensitive ("Device-ID" and "Alias" are rejected). -/
theorem deviceIdentifierTypeFromFlags_classifies (isValid : String → Bool) :
    (∀ d f, (∃ e, deviceIdentifierTypeFromFlags isValid d f = .error e) ↔
      ((f ≠ "" ∧ f ≠ "device-id" ∧ f ≠ "alias") ∨ (f = "device-id" ∧ isValid d = false))) ∧
    (∀ d f, (∃ e, deviceIdentifierTypeFromFlags isValid d f = .error e) ∨
      (∃ t, deviceIdentifierTypeFromFlags isValid d f = .ok t)) ∧
    (∀ d, deviceIdentifierTypeFromFlags isValid d ""
      = .ok DeviceIdentifierType.AutodiscoverDeviceIdentifier) ∧
    (∀ d, isValid d = true → deviceIdentifierTypeFromFlags isValid d "device-id"
      = .ok DeviceIdentifierType.AstarteDeviceID) ∧
    (∀ d, deviceIdentifierTypeFromFlags isValid d "alias"
      = .ok DeviceIdentifierType.AstarteDeviceAlias) ∧
    (∀ d, ∃ e, deviceIdentifierTypeFromFlags isValid d "Device-ID" = .error e) ∧
    (∀ d, ∃ e, deviceIdentifierTypeFromFlags isValid d "Alias" = .error e) := by
  refine ⟨?_, ?_, ?_, ?_, ?_, ?_, ?_⟩
  · intro d f
    unfold deviceIdentifierTypeFromFlags
    by_cases h1 : f = ""
    · subst h1; simp
    · by_cases h2 : f = "device-id"
      · subst h2
        cases hv : isValid d <;> simp [hv]
      · by_cases h3 : f = "alias"
        · subst h3; simp
        · simp [h1, h2, h3]
  · intro d f
    unfold deviceIdentifierTypeFromFlags
    by_cases h1 : f = ""
    · subst h1; simp
    · by_cases h2 : f = "device-id"
      · subst h2
        cases hv : isValid d <;> simp [hv]
      · by_cases h3 : f = "alias"
        · subst h3; simp
        · simp [h1, h2, h3]
  · intro d; simp [deviceIdentifierTypeFromFlags]
  · intro d hv; simp [deviceIdentifierTypeFromFlags, hv]
  · intro d; simp [deviceIdentifierTypeFromFlags]
  · intro d; simp [deviceIdentifierTypeFromFlags]
  · intro d; simp [deviceIdentifierTypeFromFlags]

/-- The statement of C10 for a 22 character identifier forced to be read as a Device ID,
and for an identifier that is too short. -/
theorem deviceIdentifierTypeFromFlags_classifies_witness :
    sampleIsValidDeviceID "2TBn-jNESuuHamE2Zo1anA" = true ∧
    deviceIdentifierTypeFromFlags sampleIsValidDeviceID "2TBn-jNESuuHamE2Zo1anA" "device-id"
      = .ok DeviceIdentifierType.AstarteDeviceID ∧
    (∃ e, deviceIdentifierTypeFromFlags sampleIsValidDeviceID "my-device" "device-id"
      = .error e) :=
  have h := deviceIdentifierTypeFromFlags_classifies sampleIsValidDeviceID
  ⟨by decide, h.2.2.2.1 "2TBn-jNESuuHamE2Zo1anA" (by decide),
    (h.1 "my-device" "device-id").mpr (Or.inr ⟨rfl, by decide⟩)⟩

end Astartectl
